import Mathlib

/-!
Shallow embedding of the openapi-to-go-crud item service: the Item data
model, the items table state, the two gin handlers of
src/handlers/handlers.go (GetItems, CreateItem), the generated echo
route registration of src/generated/server.go, and the repository
operations described by the specification.  Storage outcomes (query,
scan and insert failures) are injected as explicit parameters, since
the database is external to the program.
-/

namespace CrudApi

/-- Item mirrors the Item JSON schema and models.Item: three string
fields id, name, description. -/
structure Item where
  id : String
  name : String
  description : String
deriving DecidableEq, Repr

/-- Row models one row of the items table: SERIAL integer primary key,
name and description text columns. -/
structure Row where
  id : Nat
  name : String
  description : String
deriving DecidableEq, Repr

/-- DBState models the items table: the rows in storage-default
(insertion) order, plus the next SERIAL id the database will assign. -/
structure DBState where
  rows : List Row
  nextId : Nat
deriving DecidableEq, Repr

/-- rowToItem mirrors rows.Scan(&item.Id, &item.Name, &item.Description):
the integer id column is scanned into the string Id field. -/
def rowToItem (r : Row) : Item :=
  ⟨toString r.id, r.name, r.description⟩

/-- RespBody is a JSON response body written by a handler: an array of
items, a single item, or a gin.H error payload with the error string. -/
inductive RespBody where
  | items (is : List Item)
  | item (i : Item)
  | errorPayload (msg : String)
deriving DecidableEq, Repr

/-- Response is an HTTP status code together with the JSON body. -/
structure Response where
  status : Nat
  body : RespBody
deriving DecidableEq, Repr

/-- scanRows mirrors the rows.Next / rows.Scan loop of GetItems: each
list element is the outcome of scanning one returned row, and the first
scan error aborts the loop with that error. -/
def scanRows : List (Except String Row) → Except String (List Item)
  | [] => .ok []
  | .error e :: _ => .error e
  | .ok r :: rest => (scanRows rest).map (fun is => rowToItem r :: is)

/-- GetItems mirrors handlers.GetItems: a failed Query answers 500 with
the error payload; a failed Scan answers 500 with the error payload;
otherwise the scanned items are answered with 200. -/
def GetItems (q : Except String (List (Except String Row))) : Response :=
  match q with
  | .error e => ⟨500, .errorPayload e⟩
  | .ok rs =>
    match scanRows rs with
    | .error e => ⟨500, .errorPayload e⟩
    | .ok is => ⟨200, .items is⟩

/-- queryAll models the statement SELECT id, name, description FROM items
succeeding against a state: every stored row is returned in
storage-default order and each row scans cleanly. -/
def queryAll (s : DBState) : List (Except String Row) :=
  s.rows.map .ok

/-- listHandler is GetItems run against a state whose query and row
scans succeed. -/
def listHandler (s : DBState) : Response :=
  GetItems (.ok (queryAll s))

/-- insertReturning models INSERT INTO items (name, description)
VALUES ($1, $2) RETURNING id: the next SERIAL id is assigned, the row is
appended after all existing rows, and the assigned id is returned. -/
def insertReturning (s : DBState) (nm ds : String) : Nat × DBState :=
  (s.nextId, ⟨s.rows ++ [⟨s.nextId, nm, ds⟩], s.nextId + 1⟩)

/-- CreateItem mirrors handlers.CreateItem: a ShouldBindJSON error
answers 400 with the error payload before any statement runs, leaving
the state unchanged; a failed insert answers 500; otherwise the bound
item, its Id field overwritten with the id returned by the insert, is
answered with 201. -/
def CreateItem (bindOutcome : Except String Item) (insertErr : Option String)
    (s : DBState) : Response × DBState :=
  match bindOutcome with
  | .error e => (⟨400, .errorPayload e⟩, s)
  | .ok item =>
    match insertErr with
    | some e => (⟨500, .errorPayload e⟩, s)
    | none =>
      let r := insertReturning s item.name item.description
      (⟨201, .item { item with id := toString r.1 }⟩, r.2)

/-- Modelled from the spec: the ShouldBindJSON rules of models.Item,
whose source file models/models.go is not under src/.  Per the spec,
create "validates name is non-empty (fails with ValidationError
otherwise)"; a body that does not decode to an Item is a malformed
request.  none stands for a malformed JSON body. -/
def bindItemJSON (body : Option Item) : Except String Item :=
  match body with
  | none => .error "invalid request body"
  | some it => if it.name = "" then .error "name is required" else .ok it

/-- handleCreate is CreateItem composed with the JSON binder. -/
def handleCreate (body : Option Item) (insertErr : Option String)
    (s : DBState) : Response × DBState :=
  CreateItem (bindItemJSON body) insertErr s

/-- WrapperResult is the outcome of a generated ServerInterfaceWrapper
method: either an echo HTTPError answered without invoking the handler,
or the handler invoked with the bound path parameter. -/
inductive WrapperResult where
  | httpError (status : Nat) (msg : String)
  | callHandler (id : String)
deriving DecidableEq, Repr

/-- DeleteItemsId mirrors ServerInterfaceWrapper.DeleteItemsId: a failed
BindStyledParameterWithLocation answers 400 without invoking the
handler; otherwise the handler is invoked with the bound id. -/
def DeleteItemsId (bindOutcome : Except String String) : WrapperResult :=
  match bindOutcome with
  | .error e => .httpError 400 ("Invalid format for parameter id: " ++ e)
  | .ok id => .callHandler id

/-- GetItemsId mirrors ServerInterfaceWrapper.GetItemsId, identical in
shape to the delete wrapper. -/
def GetItemsId (bindOutcome : Except String String) : WrapperResult :=
  match bindOutcome with
  | .error e => .httpError 400 ("Invalid format for parameter id: " ++ e)
  | .ok id => .callHandler id

/-- PutItemsId mirrors ServerInterfaceWrapper.PutItemsId, identical in
shape to the delete wrapper. -/
def PutItemsId (bindOutcome : Except String String) : WrapperResult :=
  match bindOutcome with
  | .error e => .httpError 400 ("Invalid format for parameter id: " ++ e)
  | .ok id => .callHandler id

/-- Route is one route registration: HTTP method, path pattern, and the
name of the handler it dispatches to. -/
structure Route where
  method : String
  path : String
  handlerName : String
deriving DecidableEq, Repr

/-- mainRoutes mirrors the gin router registrations in main: only the
list and create endpoints are registered; the remaining three are left
to the comment "Add routes for other handlers here". -/
def mainRoutes : List Route :=
  [⟨"GET", "/items", "GetItems"⟩,
   ⟨"POST", "/items", "CreateItem"⟩]

/-- RegisterHandlersWithBaseURL mirrors
generated.RegisterHandlersWithBaseURL: the five routes it adds to the
echo router, in source order, with baseURL prepended to each path. -/
def RegisterHandlersWithBaseURL (baseURL : String) : List Route :=
  [⟨"GET", baseURL ++ "/items", "GetItems"⟩,
   ⟨"POST", baseURL ++ "/items", "PostItems"⟩,
   ⟨"DELETE", baseURL ++ "/items/:id", "DeleteItemsId"⟩,
   ⟨"GET", baseURL ++ "/items/:id", "GetItemsId"⟩,
   ⟨"PUT", baseURL ++ "/items/:id", "PutItemsId"⟩]

/-- RegisterHandlers mirrors generated.RegisterHandlers: registration
with an empty base URL. -/
def RegisterHandlers : List Route := RegisterHandlersWithBaseURL ""

/-- specEndpoints is the five-endpoint interface table of the spec,
with path parameters written in router pattern form. -/
def specEndpoints : List (String × String) :=
  [("GET", "/items"), ("POST", "/items"), ("GET", "/items/:id"),
   ("PUT", "/items/:id"), ("DELETE", "/items/:id")]

/-- RepoError is the error taxonomy of the spec. -/
inductive RepoError where
  | NotFound
  | ValidationError
  | StorageError (msg : String)
deriving DecidableEq, Repr

/-- repoErrorStatus is the HTTP status the spec maps each repository
error to: 400, 404, 500. -/
def repoErrorStatus : RepoError → Nat
  | .NotFound => 404
  | .ValidationError => 400
  | .StorageError _ => 500

/-- deleteSuccessStatus is the no-content success status of delete. -/
def deleteSuccessStatus : Nat := 204

/-- Modelled from the spec: the GetByID(id) repository operation; no
read-by-id handler exists under src/handlers.  It "returns the item
matching id, or fails with NotFound if no row matches". -/
def GetByID (s : DBState) (id : Nat) : Except RepoError Item :=
  match s.rows.find? (fun r => r.id == id) with
  | some r => .ok (rowToItem r)
  | none => .error .NotFound

/-- Modelled from the spec: the Update(id, name, description) repository
operation; no update handler exists under src/handlers.  It "fails with
NotFound if no row matches id; otherwise overwrites name and description
in place and returns the updated item". -/
def Update (s : DBState) (id : Nat) (nm ds : String) :
    Except RepoError (Item × DBState) :=
  if s.rows.any (fun r => r.id == id) then
    .ok (⟨toString id, nm, ds⟩,
         ⟨s.rows.map (fun r => if r.id == id then ⟨id, nm, ds⟩ else r),
          s.nextId⟩)
  else
    .error .NotFound

/-- Modelled from the spec: the Delete(id) repository operation; no
delete handler exists under src/handlers.  It "fails with NotFound if no
row matches id; otherwise removes the row and signals success with no
content". -/
def Delete (s : DBState) (id : Nat) : Except RepoError DBState :=
  if s.rows.any (fun r => r.id == id) then
    .ok ⟨s.rows.filter (fun r => r.id != id), s.nextId⟩
  else
    .error .NotFound

/-- Scanning a list of rows that all scan cleanly yields exactly those
rows as items, in order. -/
theorem scanRows_map_ok (l : List Row) :
    scanRows (l.map Except.ok) = .ok (l.map rowToItem) := by
  induction l with
  | nil => rfl
  | cons r rest ih => simp [scanRows, ih, Except.map]

/-- Scanning aborts with the first scan error, whatever rows precede or
follow it. -/
theorem scanRows_first_error (pre : List Row) (e : String)
    (post : List (Except String Row)) :
    scanRows (pre.map Except.ok ++ Except.error e :: post) = .error e := by
  induction pre with
  | nil => rfl
  | cons r rest ih => simp [scanRows, ih, Except.map]

/-- C3: the list operation run against any state whose query and scans
succeed answers HTTP 200 with every stored row as an item, in
storage-default insertion order; against a state with no items it
answers 200 with the empty sequence, not an error. -/
theorem getItems_lists_all_in_order (s : DBState) :
    listHandler s = ⟨200, .items (s.rows.map rowToItem)⟩ ∧
    (∀ n : Nat, listHandler ⟨[], n⟩ = ⟨200, .items []⟩) := by
  refine ⟨?_, fun n => rfl⟩
  simp [listHandler, queryAll, GetItems, scanRows_map_ok]

/-- C6: a failed items query answers HTTP 500 with a JSON error payload
holding the storage error, and a row-scan failure anywhere in the result
set likewise answers 500 with that error; the handler returns at once,
with no retry and no local recovery. -/
theorem getItems_storage_failure_500 (e : String) (pre : List Row)
    (post : List (Except String Row)) :
    GetItems (.error e) = ⟨500, .errorPayload e⟩ ∧
    GetItems (.ok (pre.map Except.ok ++ Except.error e :: post)) =
      ⟨500, .errorPayload e⟩ := by
  refine ⟨rfl, ?_⟩
  simp [GetItems, scanRows_first_error]

/-- C5: a malformed JSON body makes CreateItem answer 400 with the bind
error and leave the stored state untouched, no insert running; a path
parameter that fails to bind makes each generated wrapper answer 400
without invoking its handler, so no storage statement runs. -/
theorem bind_failure_400_no_statement (e : String)
    (insertErr : Option String) (s : DBState) :
    CreateItem (.error e) insertErr s = (⟨400, .errorPayload e⟩, s) ∧
    DeleteItemsId (.error e) =
      .httpError 400 ("Invalid format for parameter id: " ++ e) ∧
    GetItemsId (.error e) =
      .httpError 400 ("Invalid format for parameter id: " ++ e) ∧
    PutItemsId (.error e) =
      .httpError 400 ("Invalid format for parameter id: " ++ e) := by
  exact ⟨rfl, rfl, rfl, rfl⟩

/-- C1: creating with an empty name answers 400 (the spec's
ValidationError) and leaves the stored set of rows unchanged: the bind
fails before the insert statement ever runs. -/
theorem createItem_empty_name_no_insert (it : Item)
    (insertErr : Option String) (s : DBState) (h : it.name = "") :
    handleCreate (some it) insertErr s =
      (⟨400, .errorPayload "name is required"⟩, s) := by
  simp [handleCreate, bindItemJSON, h, CreateItem]

/-- Witness for C1 at a concrete empty-name item and state. -/
theorem createItem_empty_name_no_insert_witness :
    handleCreate (some ⟨"x", "", "d"⟩) none ⟨[], 1⟩ =
      (⟨400, .errorPayload "name is required"⟩, ⟨[], 1⟩) :=
  createItem_empty_name_no_insert ⟨"x", "", "d"⟩ none ⟨[], 1⟩ rfl

/-- C4: a create whose body binds with a non-empty name and whose insert
succeeds answers HTTP 201 with the created item carrying the id newly
assigned by storage, and the row is appended to the table. -/
theorem createItem_valid_201 (it : Item) (s : DBState)
    (h : it.name ≠ "") :
    handleCreate (some it) none s =
      (⟨201, .item ⟨toString s.nextId, it.name, it.description⟩⟩,
       ⟨s.rows ++ [⟨s.nextId, it.name, it.description⟩], s.nextId + 1⟩) := by
  simp [handleCreate, bindItemJSON, h, CreateItem, insertReturning]

/-- Witness for C4 at a concrete valid body and empty state. -/
theorem createItem_valid_201_witness :
    handleCreate (some ⟨"9", "widget", "a widget"⟩) none ⟨[], 1⟩ =
      (⟨201, .item ⟨"1", "widget", "a widget"⟩⟩,
       ⟨[⟨1, "widget", "a widget"⟩], 2⟩) :=
  createItem_valid_201 ⟨"9", "widget", "a widget"⟩ ⟨[], 1⟩ (by decide)

/-- C10: on a successful create, the name and description of the
response item are exactly the ones parsed from the request body,
unmodified; only the id field comes from storage, as the newly assigned
id. -/
theorem createItem_body_passthrough (it : Item) (s : DBState) :
    ∃ ri : Item,
      (CreateItem (.ok it) none s).1 = ⟨201, .item ri⟩ ∧
      ri.name = it.name ∧ ri.description = it.description ∧
      ri.id = toString s.nextId :=
  ⟨⟨toString s.nextId, it.name, it.description⟩, rfl, rfl, rfl, rfl⟩

/-- C2 (counterexample): the routes main actually registers do not cover
the five-endpoint interface table; in particular no registered route
matches DELETE /items/:id, and the full table check fails. -/
theorem mainRoutes_missing_delete :
    (mainRoutes.any fun r =>
      r.method == "DELETE" && r.path == "/items/:id") = false ∧
    (specEndpoints.all fun ep => mainRoutes.any fun r =>
      r.method == ep.1 && r.path == ep.2) = false := by
  exact ⟨rfl, rfl⟩

/-- C2 (amended): the generated RegisterHandlers binds every endpoint of
the five-endpoint table to the matching ServerInterface operation, but
it is never invoked; the program's main registers only GET /items bound
to GetItems and POST /items bound to CreateItem, so only those two
endpoints are reachable. -/
theorem generated_covers_all_main_covers_two :
    (specEndpoints.all fun ep => RegisterHandlers.any fun r =>
      r.method == ep.1 && r.path == ep.2) = true ∧
    mainRoutes = [⟨"GET", "/items", "GetItems"⟩,
                  ⟨"POST", "/items", "CreateItem"⟩] := by
  exact ⟨rfl, rfl⟩

/-- C7: updating an id that matches no stored row fails with NotFound,
which maps to HTTP 404, and no new state is produced; updating a
matching id overwrites exactly that row's name and description in place,
keeping every other row and the row order, and returns the updated
item. -/
theorem update_notfound_or_overwrite (s : DBState) (id : Nat)
    (nm ds : String) :
    ((∀ r ∈ s.rows, r.id ≠ id) →
      Update s id nm ds = .error .NotFound ∧
      repoErrorStatus .NotFound = 404) ∧
    ((∃ r ∈ s.rows, r.id = id) →
      Update s id nm ds =
        .ok (⟨toString id, nm, ds⟩,
             ⟨s.rows.map (fun r => if r.id == id then ⟨id, nm, ds⟩ else r),
              s.nextId⟩)) := by
  constructor
  · intro h
    have hany : s.rows.any (fun r => r.id == id) = false := by
      simp only [List.any_eq_false, beq_iff_eq]
      exact h
    refine ⟨?_, rfl⟩
    simp [Update, hany]
  · rintro ⟨r, hr, hid⟩
    have hany : s.rows.any (fun r => r.id == id) = true := by
      simp only [List.any_eq_true, beq_iff_eq]
      exact ⟨r, hr, hid⟩
    simp [Update, hany]

/-- Witness for C7: a one-row table, updating an absent id and then the
present id. -/
theorem update_notfound_or_overwrite_witness :
    (Update ⟨[⟨1, "a", "b"⟩], 2⟩ 7 "x" "y" = .error .NotFound ∧
      repoErrorStatus .NotFound = 404) ∧
    Update ⟨[⟨1, "a", "b"⟩], 2⟩ 1 "x" "y" =
      .ok (⟨"1", "x", "y"⟩, ⟨[⟨1, "x", "y"⟩], 2⟩) :=
  ⟨(update_notfound_or_overwrite ⟨[⟨1, "a", "b"⟩], 2⟩ 7 "x" "y").1
      (by decide),
   (update_notfound_or_overwrite ⟨[⟨1, "a", "b"⟩], 2⟩ 1 "x" "y").2
      ⟨⟨1, "a", "b"⟩, by simp, rfl⟩⟩

/-- C8: a delete that succeeds removes every row carrying that id and
signals success with no content (204), and a subsequent read-by-id for
the same id fails with NotFound. -/
theorem delete_then_get_notfound (s s2 : DBState) (id : Nat)
    (h : Delete s id = .ok s2) :
    GetByID s2 id = .error .NotFound ∧
    s2.rows = s.rows.filter (fun r => r.id != id) ∧
    deleteSuccessStatus = 204 := by
  have hrows : s2.rows = s.rows.filter (fun r => r.id != id) := by
    unfold Delete at h
    split at h
    · cases h
      rfl
    · cases h
  refine ⟨?_, hrows, rfl⟩
  unfold GetByID
  rw [hrows]
  have hnone : (s.rows.filter (fun r => r.id != id)).find?
      (fun r => r.id == id) = none := by
    rw [List.find?_eq_none]
    intro x hx
    have hmem := List.of_mem_filter hx
    simp only [bne_iff_ne, ne_eq] at hmem
    simp [hmem]
  rw [hnone]

/-- Witness for C8: deleting the only row of a one-row table, then
reading it back. -/
theorem delete_then_get_notfound_witness :
    GetByID ⟨[], 2⟩ 1 = .error .NotFound ∧
    (⟨[], 2⟩ : DBState).rows =
      (⟨[⟨1, "a", "b"⟩], 2⟩ : DBState).rows.filter (fun r => r.id != 1) ∧
    deleteSuccessStatus = 204 :=
  delete_then_get_notfound ⟨[⟨1, "a", "b"⟩], 2⟩ ⟨[], 2⟩ 1 rfl

/-- Searching an appended list starts over the left part; when the
predicate rejects everything there, the search continues on the right
part. -/
theorem find?_append_of_all_false {α : Type} (p : α → Bool)
    (l1 l2 : List α) (h : ∀ x ∈ l1, p x = false) :
    (l1 ++ l2).find? p = l2.find? p := by
  induction l1 with
  | nil => rfl
  | cons a t ih =>
    rw [List.cons_append, List.find?_cons_of_neg]
    · exact ih fun x hx => h x (List.mem_cons_of_mem a hx)
    · simp [h a (List.mem_cons_self a t)]

/-- C9: in a state whose stored ids are all below the next SERIAL id,
creating an item with a non-empty name and then reading by the id the
create returned yields an item with the same name and description. -/
theorem create_then_read_roundtrip (s : DBState) (bid nm ds : String)
    (hnm : nm ≠ "") (hfresh : ∀ r ∈ s.rows, r.id < s.nextId) :
    (handleCreate (some ⟨bid, nm, ds⟩) none s).1 =
      ⟨201, .item ⟨toString s.nextId, nm, ds⟩⟩ ∧
    GetByID (handleCreate (some ⟨bid, nm, ds⟩) none s).2 s.nextId =
      .ok ⟨toString s.nextId, nm, ds⟩ := by
  have hstate : handleCreate (some ⟨bid, nm, ds⟩) none s =
      (⟨201, .item ⟨toString s.nextId, nm, ds⟩⟩,
       ⟨s.rows ++ [⟨s.nextId, nm, ds⟩], s.nextId + 1⟩) := by
    simp [handleCreate, bindItemJSON, hnm, CreateItem, insertReturning]
  rw [hstate]
  refine ⟨rfl, ?_⟩
  unfold GetByID
  have hleft : ∀ x ∈ s.rows, (x.id == s.nextId) = false := by
    intro x hx
    simp [Nat.ne_of_lt (hfresh x hx)]
  rw [show (⟨s.rows ++ [⟨s.nextId, nm, ds⟩], s.nextId + 1⟩ : DBState).rows
        = s.rows ++ [⟨s.nextId, nm, ds⟩] from rfl,
      find?_append_of_all_false _ _ _ hleft]
  simp [List.find?, rowToItem]

/-- Witness for C9: creating the spec's widget item in the empty table
and reading it back by the returned id. -/
theorem create_then_read_roundtrip_witness :
    (handleCreate (some ⟨"", "widget", "a widget"⟩) none ⟨[], 1⟩).1 =
      ⟨201, .item ⟨"1", "widget", "a widget"⟩⟩ ∧
    GetByID (handleCreate (some ⟨"", "widget", "a widget"⟩) none
        ⟨[], 1⟩).2 1 =
      .ok ⟨"1", "widget", "a widget"⟩ :=
  create_then_read_roundtrip ⟨[], 1⟩ "" "widget" "a widget" (by decide)
    (by intro r hr; cases hr)

end CrudApi
